import Mathlib

/-!
Verification development for the watchdog_backup repository.

The two Python modules (`watchdog_backup.py` and `main.py`) are shallowly
embedded below.  File systems are modelled as finite trees of named entries,
modification times as rationals (Python floats are totally ordered reals for
every comparison the program performs), file sizes as naturals, and every
effectful call (subprocess exit codes, timeouts, raised exceptions, marker
reads/writes) as an explicit input or an explicit piece of state.
-/

namespace WatchdogBackup

/-- Metadata the program reads from `os.stat` / `os.path.getmtime` /
`os.path.getsize` for a directory entry: modification time and size. -/
structure FileMeta where
  mtime : ℚ
  size : ℕ
  deriving DecidableEq, Repr

mutual
/-- A file-system node: a regular file or a directory with named entries.
Directories also carry metadata because `os.path.getmtime` is called on
directory paths (in `get_dir_mtime`). -/
inductive FSTree where
  | file (meta : FileMeta)
  | dir (meta : FileMeta) (entries : Entries)
  deriving DecidableEq, Repr

/-- The named entries of a directory, in `os.listdir` order. -/
inductive Entries where
  | nil
  | cons (name : String) (t : FSTree) (rest : Entries)
  deriving DecidableEq, Repr
end

/-- The metadata of a node (`os.path.getmtime` / `os.path.getsize` work on
files and directories alike). -/
def FSTree.meta : FSTree → FileMeta
  | .file m => m
  | .dir m _ => m

/-- Look up a directory entry by name (`os.path.join(dst, item)` followed by
`os.path.exists` / `os.stat`). -/
def Entries.lookup : Entries → String → Option FSTree
  | .nil, _ => none
  | .cons n t rest, name => if n = name then some t else rest.lookup name

/-- The child of an optional node: `none` when the parent is absent or is not
a directory or has no such entry. -/
def childNode (t : Option FSTree) (name : String) : Option FSTree :=
  match t with
  | some (FSTree.dir _ es) => es.lookup name
  | _ => none

/-- Modification times of all files strictly inside a directory subtree, in
the order `os.walk` reports them (files of a directory, then recursively the
files of each subdirectory).  `os.walk` never yields directory paths in its
`files` lists, so directory mtimes other than that of the root are not collected —
exactly as in `get_dir_mtime`. -/
def Entries.allFileMtimes : Entries → List ℚ
  | .nil => []
  | .cons _ (FSTree.file m) rest => m.mtime :: rest.allFileMtimes
  | .cons _ (FSTree.dir _ des) rest => des.allFileMtimes ++ rest.allFileMtimes

/-- Model of `get_dir_mtime` (watchdog_backup.py:94-110): `0` when the path does not
exist; otherwise the own mtime of the path, raised by every file mtime found by
`os.walk` that is strictly larger.  Walking a regular file yields nothing. -/
def get_dir_mtime (t : Option FSTree) : ℚ :=
  match t with
  | none => 0
  | some (FSTree.file m) => m.mtime
  | some (FSTree.dir m es) =>
      es.allFileMtimes.foldl (fun acc x => if x > acc then x else acc) m.mtime

/-- The per-file copy test of `copy_with_python` (watchdog_backup.py:245-247),
in the order and operators of that source: destination absent, OR source mtime
strictly greater, OR sizes unequal.  `dst` is the metadata of the
destination entry of the same name, `none` when `os.path.exists` is false. -/
def needsFileCopy (src : FileMeta) (dst : Option FileMeta) : Bool :=
  match dst with
  | none => true
  | some d => decide (src.mtime > d.mtime) || decide (src.size ≠ d.size)

/-- The per-file copy test of `sync_directories` (main.py:186-197), in that
order of that source: destination absent, OR sizes unequal, OR source mtime
strictly greater.  (The `except OSError` branch, where `os.stat` fails on an
existing path, is outside this error-free model.) -/
def sync_file_need_copy (src : FileMeta) (dst : Option FileMeta) : Bool :=
  match dst with
  | none => true
  | some d => decide (src.size ≠ d.size) || decide (src.mtime > d.mtime)

/-- The body of the loop of `copy_with_python` over `os.listdir(src)`
(watchdog_backup.py:236-252), returning `(copied_files, skipped_files)`:
a subdirectory item recurses with the destination child and both counts are
accumulated; a file item adds 1 to `copied_files` when `needsFileCopy`
holds and to `skipped_files` otherwise. -/
def pyList : Entries → Option FSTree → ℕ × ℕ
  | Entries.nil, _ => (0, 0)
  | Entries.cons n (FSTree.file m) rest, dst =>
      let r := pyList rest dst
      if needsFileCopy m ((childNode dst n).map FSTree.meta) then
        (r.1 + 1, r.2)
      else
        (r.1, r.2 + 1)
  | Entries.cons n (FSTree.dir _ des) rest, dst =>
      let sub := pyList des (childNode dst n)
      let r := pyList rest dst
      (sub.1 + r.1, sub.2 + r.2)

/-- Model of `copy_with_python` (watchdog_backup.py:228-259): returns the pair
`(copied_files, skipped_files)`.  A nonexistent source, or a source that is
a regular file, makes `os.listdir(src)` raise, the `except` handler at
line 257 fires and `(0, 0)` is returned. -/
def copy_with_python (src : Option FSTree) (dst : Option FSTree) : ℕ × ℕ :=
  match src with
  | some (FSTree.dir _ es) => pyList es dst
  | _ => (0, 0)

/-- The source-subtree files that the per-file policy selects for copying,
listed by name path.  This is a specification-side recomputation used to
characterise the `copied_files` count of `copy_with_python`. -/
def neededPaths : Entries → Option FSTree → List (List String)
  | Entries.nil, _ => []
  | Entries.cons n (FSTree.file m) rest, dst =>
      if needsFileCopy m ((childNode dst n).map FSTree.meta) then
        [n] :: neededPaths rest dst
      else
        neededPaths rest dst
  | Entries.cons n (FSTree.dir _ des) rest, dst =>
      (neededPaths des (childNode dst n)).map (fun p => n :: p)
        ++ neededPaths rest dst

/-- The state of the `.last_copy_time` marker file at a destination:
absent, present but unreadable/unparsable, or holding a parsed float. -/
inductive MarkerState where
  | absent
  | unreadable
  | value (v : ℚ)
  deriving DecidableEq, Repr

/-- The change-detection block of `copy_files` (watchdog_backup.py:272-282):
`need_copy` starts `True`; only a marker that exists, reads and parses, and
satisfies `current_mtime <= last_mtime` resets it to `False`. -/
def need_copy (current : ℚ) (marker : MarkerState) : Bool :=
  match marker with
  | MarkerState.absent => true
  | MarkerState.unreadable => true
  | MarkerState.value v => if current ≤ v then false else true

/-- Outcome of one `subprocess.run` of robocopy: an exit code (a Windows
process exit code, hence a natural number), a `TimeoutExpired`, or any other
exception. -/
inductive RoboOutcome where
  | exit (code : ℕ)
  | timeout
  | exc
  deriving DecidableEq, Repr

/-- Outcome of one `subprocess.run` of rsync: an exit code or an exception. -/
inductive RsyncOutcome where
  | exit (code : ℕ)
  | exc
  deriving DecidableEq, Repr

/-- Result interpretation of `copy_with_robocopy` (watchdog_backup.py:173-196):
`returncode <= 7` returns `True`, any larger code returns `False`, and the
`TimeoutExpired` and generic `except` handlers return `False`. -/
def copy_with_robocopy : RoboOutcome → Bool
  | RoboOutcome.exit code => code ≤ 7
  | RoboOutcome.timeout => false
  | RoboOutcome.exc => false

/-- Result interpretation of `copy_with_rsync` (watchdog_backup.py:213-225):
`returncode == 0` returns `True`, anything else (and any exception)
returns `False`. -/
def copy_with_rsync : RsyncOutcome → Bool
  | RsyncOutcome.exit code => code = 0
  | RsyncOutcome.exc => false

/-- The platform facts `copy_files` branches on: `platform.system()` and the
cached availability probes of the two external tools. -/
structure Env where
  isWindows : Bool
  robocopyAvailable : Bool
  rsyncAvailable : Bool
  deriving DecidableEq, Repr

/-- The external-world outcomes a single copy attempt can observe (whichever
backend is selected consumes the matching component). -/
structure CopyEffects where
  robo : RoboOutcome
  rsync : RsyncOutcome
  deriving DecidableEq, Repr

/-- The backend selection and success computation of `copy_files`
(watchdog_backup.py:288-299): Windows with robocopy available runs robocopy;
otherwise a non-Windows platform with rsync available runs rsync; otherwise
the Python walker runs and `success = copied > 0`. -/
def run_backend (env : Env) (eff : CopyEffects)
    (src dst : Option FSTree) : Bool :=
  if env.isWindows && env.robocopyAvailable then
    copy_with_robocopy eff.robo
  else if !env.isWindows && env.rsyncAvailable then
    copy_with_rsync eff.rsync
  else
    decide (0 < (copy_with_python src dst).1)

/-- What one call of `copy_files` did: the marker content afterwards, whether
a copy was attempted (`need_copy`), and whether the attempt reported
success. -/
structure CopyFilesOutcome where
  marker : MarkerState
  ran : Bool
  success : Bool
  deriving DecidableEq, Repr

/-- Model of `copy_files` (watchdog_backup.py:262-318): computes `current_mtime` from
the source once, up front; decides `need_copy` against the marker; on a
needed copy runs the selected backend; and writes `str(current_mtime)` into
the marker file only when the backend reported success (the write itself may
fail — `writeOk` — in which case the old content survives). -/
def copy_files (env : Env) (eff : CopyEffects) (src : Option FSTree)
    (marker : MarkerState) (writeOk : Bool) (dst : Option FSTree) :
    CopyFilesOutcome :=
  let current := get_dir_mtime src
  if need_copy current marker then
    let s := run_backend env eff src dst
    if s then
      if writeOk then
        { marker := MarkerState.value current, ran := true, success := true }
      else
        { marker := marker, ran := true, success := true }
    else
      { marker := marker, ran := true, success := false }
  else
    { marker := marker, ran := false, success := false }

/-- A mounted volume as the OS reports it: its volume name (label) and its
mount path (drive root on Windows, mountpoint elsewhere). -/
structure Volume where
  name : String
  mount : String
  deriving DecidableEq, Repr

/-- Does `n` occur at the very front of `h`?  (The step relation of the
Python substring operator.) -/
def leadsWith : List Char → List Char → Bool
  | [], _ => true
  | _ :: _, [] => false
  | a :: as, b :: bs => a = b && leadsWith as bs

/-- The Python test `needle in hay` on strings: `needle` occurs contiguously
somewhere in `hay`. -/
def containsSeq (n : List Char) : List Char → Bool
  | [] => n.isEmpty
  | c :: t => leadsWith n (c :: t) || containsSeq n t

/-- The uppercased form `s.upper()` as a character list. -/
def upperChars (s : String) : List Char := s.toList.map Char.toUpper

/-- The test `disk_name.upper() in vol_name.upper()` — case-insensitive substring. -/
def ciSub (needle hay : String) : Bool :=
  containsSeq (upperChars needle) (upperChars hay)

/-- The Windows branch of `is_disk_connected` (watchdog_backup.py:57-66):
iterate the existing drives in order and return the first whose volume name
contains `disk_name` case-insensitively; `None` when none does.  The
enumeration the OS performs is the input list. -/
def is_disk_connected (disk_name : String) : List Volume → Option String
  | [] => none
  | v :: rest =>
      if ciSub disk_name v.name then some v.mount
      else is_disk_connected disk_name rest

/-- The Windows branch of `BackupManager.find_drive_path` (main.py:134-140):
iterate the `wmic` rows and return `caption + "\\"` for the first row whose
volume name is EXACTLY the configured label; `None` when none is. -/
def find_drive_path (drive_label : String) : List Volume → Option String
  | [] => none
  | v :: rest =>
      if v.name = drive_label then some (v.mount ++ "\\")
      else find_drive_path drive_label rest

/-- The mutable fields of `BackupManager` the main loop reads and writes
(main.py:129-130): `drive_connected` and `last_sync_time`. -/
structure MonitorState where
  drive_connected : Bool
  last_sync_time : ℚ
  deriving DecidableEq, Repr

/-- One iteration of the `while True` loop of `main` (main.py:273-289).
`current` is `check_drive_connection()`, `now` the wall clock (the time at
which `sync_directories` would set `last_sync_time`).  Returns the new state
and whether `sync_directories` ran in this iteration.  A connect transition
syncs unconditionally; a disconnect transition only flips the flag; with no
transition, a sync runs exactly when the drive is connected and more than
`interval` seconds passed since the last one. -/
def loop_step (interval : ℚ) (st : MonitorState) (current : Bool) (now : ℚ) :
    MonitorState × Bool :=
  if current ≠ st.drive_connected then
    if current then
      ({ drive_connected := current, last_sync_time := now }, true)
    else
      ({ drive_connected := current, last_sync_time := st.last_sync_time }, false)
  else if st.drive_connected ∧ now - st.last_sync_time > interval then
    ({ st with last_sync_time := now }, true)
  else
    (st, false)

/-- Model of `BackupManager.check_drive_connection` (main.py:153-161).  Paths are
modelled as component lists; `os.path.relpath(t, t.split(os.sep)[0] + os.sep)`
strips the first component of a path, and `os.path.join(drive_path, rel)` is list
append.  `ex` is `os.path.exists` of the file system.  The drive counts as
connected only when `find_drive_path` succeeded and, for every target
directory, its stripped path exists under the mount. -/
def check_drive_connection (resolved : Option (List String))
    (ex : List String → Bool) (targets : List (List String)) : Bool :=
  match resolved with
  | none => false
  | some mount => targets.all fun t => ex (mount ++ t.tail)

/-- Constant `MAX_ROBOCOPY_LOG_SIZE` (watchdog_backup.py:16). -/
def MAX_ROBOCOPY_LOG_SIZE : ℕ := 10 * 1024 * 1024

/-- Constant `MAX_LOG_FILES` (watchdog_backup.py:17). -/
def MAX_LOG_FILES : ℕ := 10

/-- The files `rotate_robocopy_log` touches: the current `robocopy.log`
(`none` when absent, else its size) and the creation times of the existing
`robocopy_*.log` archives. -/
structure RoboLogState where
  log : Option ℕ
  archives : List ℚ
  deriving DecidableEq, Repr

/-- Insert into a list sorted ascending (step of the stable Python `sorted`). -/
def insertCtime (x : ℚ) : List ℚ → List ℚ
  | [] => [x]
  | y :: t => if x ≤ y then x :: y :: t else y :: insertCtime x t

/-- Model of `sorted(archives, key=os.path.getctime)`: ascending by creation time. -/
def sortCtimes : List ℚ → List ℚ
  | [] => []
  | x :: t => insertCtime x (sortCtimes t)

/-- The `while len(log_files) >= MAX_LOG_FILES: os.remove(log_files.pop(0))`
loop (watchdog_backup.py:136-137): drop from the front (the oldest) until
fewer than `MAX_LOG_FILES` remain. -/
def pruneOld : List ℚ → List ℚ
  | [] => []
  | x :: t =>
      if MAX_LOG_FILES ≤ (x :: t).length then pruneOld t
      else x :: t

/-- Model of `rotate_robocopy_log` (watchdog_backup.py:113-140): return immediately
when `robocopy.log` does not exist or is smaller than the threshold;
otherwise rename it to a timestamped `robocopy_*.log` archive (its creation
time `logCtime` is preserved by the rename), list the archives sorted by
creation time, and delete from the oldest end until the count is below
`MAX_LOG_FILES`. -/
def rotate_robocopy_log (st : RoboLogState) (logCtime : ℚ) : RoboLogState :=
  match st.log with
  | none => st
  | some size =>
      if size < MAX_ROBOCOPY_LOG_SIZE then st
      else
        { log := none,
          archives := pruneOld (sortCtimes (logCtime :: st.archives)) }

/-! ### Helper lemmas -/

/-- The `copied_files` count of the walker loop equals the number of
source files the per-file policy selects. -/
theorem pyList_copied (es : Entries) (dst : Option FSTree) :
    (pyList es dst).1 = (neededPaths es dst).length := by
  induction es, dst using pyList.induct <;> simp_all [pyList, neededPaths]

/-- The number of files of the source subtree that the per-file policy
selects for copying (zero when the source is absent or a regular file,
where the walk aborts immediately). -/
def neededCount (src dst : Option FSTree) : ℕ :=
  match src with
  | some (FSTree.dir _ es) => (neededPaths es dst).length
  | _ => 0

theorem copy_with_python_copied (src dst : Option FSTree) :
    (copy_with_python src dst).1 = neededCount src dst := by
  cases src with
  | none => rfl
  | some t =>
      cases t with
      | file m => rfl
      | dir m es => exact pyList_copied es dst

theorem copy_files_ran (env : Env) (eff : CopyEffects) (src : Option FSTree)
    (marker : MarkerState) (writeOk : Bool) (dst : Option FSTree) :
    (copy_files env eff src marker writeOk dst).ran
      = need_copy (get_dir_mtime src) marker := by
  simp only [copy_files]
  split
  · rename_i h
    split
    · split <;> simp [h]
    · simp [h]
  · rename_i h
    simp only [Bool.not_eq_true] at h
    simp [h]

theorem copy_files_success (env : Env) (eff : CopyEffects) (src : Option FSTree)
    (marker : MarkerState) (writeOk : Bool) (dst : Option FSTree) :
    (copy_files env eff src marker writeOk dst).success
      = (need_copy (get_dir_mtime src) marker && run_backend env eff src dst) := by
  simp only [copy_files]
  split
  · rename_i h
    split
    · rename_i hs
      split <;> simp [h, hs]
    · rename_i hs
      simp only [Bool.not_eq_true] at hs
      simp [h, hs]
  · rename_i h
    simp only [Bool.not_eq_true] at h
    simp [h]

theorem copy_files_marker_of_failure (env : Env) (eff : CopyEffects)
    (src : Option FSTree) (marker : MarkerState) (writeOk : Bool)
    (dst : Option FSTree)
    (h : (copy_files env eff src marker writeOk dst).success = false) :
    (copy_files env eff src marker writeOk dst).marker = marker := by
  by_cases h1 : need_copy (get_dir_mtime src) marker = true
  · by_cases h2 : run_backend env eff src dst = true
    · by_cases h3 : writeOk = true <;> simp [copy_files, h1, h2, h3] at h
    · simp [copy_files, h1, h2]
  · simp [copy_files, h1]

theorem is_disk_connected_none_iff (label : String) :
    ∀ vols : List Volume,
      (is_disk_connected label vols = none ↔
        ∀ v ∈ vols, ciSub label v.name = false) := by
  intro vols
  induction vols with
  | nil => simp [is_disk_connected]
  | cons v rest ih =>
      by_cases h : ciSub label v.name = true <;>
        simp [is_disk_connected, h, ih]

theorem is_disk_connected_first (label : String) :
    ∀ (pre : List Volume) (v : Volume) (suf : List Volume),
      (∀ u ∈ pre, ciSub label u.name = false) → ciSub label v.name = true →
      is_disk_connected label (pre ++ v :: suf) = some v.mount := by
  intro pre
  induction pre with
  | nil => intro v suf _ hv; simp [is_disk_connected, hv]
  | cons u t ih =>
      intro v suf hpre hv
      have hu : ciSub label u.name = false := hpre u (by simp)
      simp only [List.cons_append, is_disk_connected, hu]
      exact (if_neg (by simp [hu])).trans
        (ih v suf (fun x hx => hpre x (by simp [hx])) hv)

theorem find_drive_path_none_iff (label : String) :
    ∀ vols : List Volume,
      (find_drive_path label vols = none ↔ ∀ v ∈ vols, v.name ≠ label) := by
  intro vols
  induction vols with
  | nil => simp [find_drive_path]
  | cons v rest ih =>
      by_cases h : v.name = label <;> simp [find_drive_path, h, ih]

theorem find_drive_path_first (label : String) :
    ∀ (pre : List Volume) (v : Volume) (suf : List Volume),
      (∀ u ∈ pre, u.name ≠ label) → v.name = label →
      find_drive_path label (pre ++ v :: suf) = some (v.mount ++ "\\") := by
  intro pre
  induction pre with
  | nil => intro v suf _ hv; simp [find_drive_path, hv]
  | cons u t ih =>
      intro v suf hpre hv
      have hu : u.name ≠ label := hpre u (by simp)
      simp only [List.cons_append, find_drive_path, hu, if_neg]
      exact ih v suf (fun x hx => hpre x (by simp [hx])) hv

theorem insertCtime_eq (x : ℚ) :
    ∀ l : List ℚ, insertCtime x l = List.orderedInsert (· ≤ ·) x l := by
  intro l
  induction l with
  | nil => rfl
  | cons y t ih => by_cases h : x ≤ y <;> simp [insertCtime, List.orderedInsert, h, ih]

theorem sortCtimes_eq :
    ∀ l : List ℚ, sortCtimes l = List.insertionSort (· ≤ ·) l := by
  intro l
  induction l with
  | nil => rfl
  | cons x t ih => simp [sortCtimes, List.insertionSort, insertCtime_eq, ih]

theorem sortCtimes_sorted (l : List ℚ) :
    List.Sorted (· ≤ ·) (sortCtimes l) := by
  rw [sortCtimes_eq]
  exact List.sorted_insertionSort _ l

theorem sortCtimes_perm (l : List ℚ) : List.Perm (sortCtimes l) l := by
  rw [sortCtimes_eq]
  exact List.perm_insertionSort _ l

theorem pruneOld_length_lt : ∀ l : List ℚ, (pruneOld l).length < MAX_LOG_FILES := by
  intro l
  induction l with
  | nil => simp [pruneOld, MAX_LOG_FILES]
  | cons x t ih =>
      by_cases h : MAX_LOG_FILES ≤ (x :: t).length
      · simp only [pruneOld, if_pos h]
        exact ih
      · simp only [pruneOld, if_neg h]
        omega

theorem pruneOld_suffix : ∀ l : List ℚ, List.IsSuffix (pruneOld l) l := by
  intro l
  induction l with
  | nil => exact List.suffix_refl _
  | cons x t ih =>
      by_cases h : MAX_LOG_FILES ≤ (x :: t).length
      · simp only [pruneOld, if_pos h]
        exact ih.trans (List.suffix_cons x t)
      · simp only [pruneOld, if_neg h]
        exact List.suffix_refl _

theorem foldl_sup_step (acc x : ℚ) : (if x > acc then x else acc) = acc ⊔ x := by
  rcases lt_or_ge acc x with h | h
  · simp [h, sup_eq_right.mpr h.le]
  · simp [not_lt.mpr h, sup_eq_left.mpr h]

theorem foldl_sup_init_le : ∀ (l : List ℚ) (a : ℚ), a ≤ l.foldl (· ⊔ ·) a := by
  intro l
  induction l with
  | nil => intro a; exact le_refl a
  | cons x t ih => intro a; exact le_trans le_sup_left (ih (a ⊔ x))

theorem foldl_sup_mem_le :
    ∀ (l : List ℚ) (a q : ℚ), q ∈ l → q ≤ l.foldl (· ⊔ ·) a := by
  intro l
  induction l with
  | nil => intro a q hq; simp at hq
  | cons x t ih =>
      intro a q hq
      rw [List.foldl_cons]
      rcases List.mem_cons.mp hq with h | h
      · subst h
        exact le_trans le_sup_right (foldl_sup_init_le t (a ⊔ q))
      · exact ih (a ⊔ x) q h

theorem foldl_sup_attained :
    ∀ (l : List ℚ) (a : ℚ), l.foldl (· ⊔ ·) a = a ∨ l.foldl (· ⊔ ·) a ∈ l := by
  intro l
  induction l with
  | nil => intro a; exact Or.inl rfl
  | cons x t ih =>
      intro a
      rcases ih (a ⊔ x) with h | h
      · rcases le_or_lt x a with hxa | hxa
        · exact Or.inl (by rw [List.foldl_cons, h, sup_eq_left.mpr hxa])
        · refine Or.inr (List.mem_cons.mpr (Or.inl ?_))
          rw [List.foldl_cons, h, sup_eq_right.mpr hxa.le]
      · exact Or.inr (List.mem_cons.mpr (Or.inr h))

theorem get_dir_mtime_dir (m : FileMeta) (es : Entries) :
    get_dir_mtime (some (FSTree.dir m es))
      = es.allFileMtimes.foldl (· ⊔ ·) m.mtime := by
  have hfun : (fun acc x : ℚ => if x > acc then x else acc) = (· ⊔ ·) := by
    funext acc x
    exact foldl_sup_step acc x
  simp only [get_dir_mtime, hfun]

/-! ### Claim theorems -/

/-- C1: The `.last_copy_time` marker is written only after the copy attempt
for a pair reports success; whenever the attempt reports failure (a fatal
robocopy exit code above 7, a subprocess timeout, or an exception — and
likewise a failed rsync), the marker content is left unchanged, so the next
cycle re-attempts the pair. -/
theorem marker_unchanged_on_failed_copy
    (env : Env) (eff : CopyEffects) (src : Option FSTree)
    (marker : MarkerState) (writeOk : Bool) (dst : Option FSTree) :
    ((copy_files env eff src marker writeOk dst).success = false →
      (copy_files env eff src marker writeOk dst).marker = marker)
    ∧ (∀ c : ℕ, 7 < c → copy_with_robocopy (RoboOutcome.exit c) = false)
    ∧ copy_with_robocopy RoboOutcome.timeout = false
    ∧ copy_with_robocopy RoboOutcome.exc = false
    ∧ copy_with_rsync RsyncOutcome.exc = false := by
  refine ⟨copy_files_marker_of_failure env eff src marker writeOk dst,
    ?_, rfl, rfl, rfl⟩
  intro c hc
  simp only [copy_with_robocopy, decide_eq_false_iff_not]
  omega

theorem marker_unchanged_on_failed_copy_witness :
    (copy_files ⟨true, true, true⟩ ⟨RoboOutcome.exit 16, RsyncOutcome.exit 0⟩
        (some (FSTree.dir ⟨5, 0⟩ Entries.nil)) MarkerState.absent true
        none).marker
      = MarkerState.absent :=
  (marker_unchanged_on_failed_copy _ _ _ _ _ _).1 (by decide)

/-- C2: A copy is attempted for a pair exactly when the marker is absent, or
its read/parse fails, or the recursive maximum mtime of the source subtree
(`get_dir_mtime`, which really is an upper bound attained at the directory
itself or one of its files) is strictly greater than the persisted value;
a readable marker at least as large as the current maximum suppresses the
copy. -/
theorem change_detection_iff
    (env : Env) (eff : CopyEffects) (src : Option FSTree)
    (marker : MarkerState) (writeOk : Bool) (dst : Option FSTree) :
    ((copy_files env eff src marker writeOk dst).ran = true ↔
      marker = MarkerState.absent ∨ marker = MarkerState.unreadable ∨
        ∃ v, marker = MarkerState.value v ∧ v < get_dir_mtime src)
    ∧ (∀ v, marker = MarkerState.value v → get_dir_mtime src ≤ v →
        (copy_files env eff src marker writeOk dst).ran = false)
    ∧ (∀ (m : FileMeta) (es : Entries),
        m.mtime ≤ get_dir_mtime (some (FSTree.dir m es)))
    ∧ (∀ (m : FileMeta) (es : Entries), ∀ q ∈ es.allFileMtimes,
        q ≤ get_dir_mtime (some (FSTree.dir m es)))
    ∧ (∀ (m : FileMeta) (es : Entries),
        get_dir_mtime (some (FSTree.dir m es)) = m.mtime ∨
        get_dir_mtime (some (FSTree.dir m es)) ∈ es.allFileMtimes) := by
  refine ⟨?_, ?_, ?_, ?_, ?_⟩
  · rw [copy_files_ran]
    cases marker with
    | absent => simp [need_copy]
    | unreadable => simp [need_copy]
    | value v =>
        by_cases h : get_dir_mtime src ≤ v
        · simp [need_copy, h, not_lt.mpr h]
        · simp [need_copy, h, not_le.mp h]
  · intro v hv hle
    rw [copy_files_ran, hv]
    simp [need_copy, hle]
  · intro m es
    rw [get_dir_mtime_dir]
    exact foldl_sup_init_le _ _
  · intro m es q hq
    rw [get_dir_mtime_dir]
    exact foldl_sup_mem_le _ _ _ hq
  · intro m es
    rw [get_dir_mtime_dir]
    exact foldl_sup_attained _ _

theorem change_detection_iff_witness :
    (copy_files ⟨true, true, true⟩ ⟨RoboOutcome.exit 0, RsyncOutcome.exit 0⟩
        (some (FSTree.dir ⟨5, 0⟩ Entries.nil)) (MarkerState.value 5) true
        none).ran
      = false :=
  (change_detection_iff _ _ _ _ _ _).2.1 5 rfl (by decide)

/-- C3: A file considered by the walking backend is copied iff the
destination entry is absent, or the sizes differ, or the source mtime is
strictly newer; a destination with equal size and newer-or-equal mtime is
never copied.  The per-file test of the `main.py` walker agrees with the
`watchdog_backup.py` one, and one walker step performs exactly this
decision. -/
theorem per_file_copy_policy (sm : FileMeta) (d : Option FileMeta) :
    (needsFileCopy sm d = true ↔
      d = none ∨ ∃ m, d = some m ∧ (sm.size ≠ m.size ∨ m.mtime < sm.mtime))
    ∧ (∀ m, d = some m → m.size = sm.size → sm.mtime ≤ m.mtime →
        needsFileCopy sm d = false)
    ∧ sync_file_need_copy sm d = needsFileCopy sm d
    ∧ (∀ (name : String) (dm : FileMeta) (dst : Option FSTree),
        copy_with_python
            (some (FSTree.dir dm
              (Entries.cons name (FSTree.file sm) Entries.nil))) dst
          = if needsFileCopy sm ((childNode dst name).map FSTree.meta)
            then (1, 0) else (0, 1)) := by
  refine ⟨?_, ?_, ?_, ?_⟩
  · cases d with
    | none => simp [needsFileCopy]
    | some m =>
        simp only [needsFileCopy, Bool.or_eq_true, decide_eq_true_eq,
          Option.some.injEq, gt_iff_lt]
        constructor
        · intro h
          exact Or.inr ⟨m, rfl, h.symm⟩
        · rintro (h | ⟨m', hm', h⟩)
          · exact absurd h (by simp)
          · cases hm'
            exact h.symm
  · intro m hm hsize hmt
    subst hm
    simp [needsFileCopy, not_lt.mpr hmt, hsize]
  · cases d <;> simp [needsFileCopy, sync_file_need_copy, Bool.or_comm]
  · intro name dm dst
    simp only [copy_with_python, pyList]

theorem per_file_copy_policy_witness :
    needsFileCopy ⟨5, 10⟩ (some ⟨6, 10⟩) = false :=
  (per_file_copy_policy ⟨5, 10⟩ (some ⟨6, 10⟩)).2.1 ⟨6, 10⟩ rfl rfl (by decide)

/-- C4: The robocopy backend classifies an exit code as non-fatal (success
for marker-write purposes) exactly when it lies between 0 and 7 inclusive,
and as fatal exactly when it exceeds 7; a timeout or a spawn exception is
also fatal.  (Windows process exit codes are unsigned, hence `ℕ`.) -/
theorem robocopy_exit_code_classification :
    (∀ c : ℕ, copy_with_robocopy (RoboOutcome.exit c) = true ↔ 0 ≤ c ∧ c ≤ 7)
    ∧ (∀ c : ℕ, copy_with_robocopy (RoboOutcome.exit c) = false ↔ 7 < c)
    ∧ copy_with_robocopy RoboOutcome.timeout = false
    ∧ copy_with_robocopy RoboOutcome.exc = false := by
  refine ⟨?_, ?_, rfl, rfl⟩ <;>
    · intro c
      simp only [copy_with_robocopy, decide_eq_true_eq, decide_eq_false_iff_not]
      omega

/-- A source directory holding one file that is already present at the
destination with identical metadata — the walker skips it. -/
def upToDateTree : FSTree :=
  FSTree.dir ⟨0, 0⟩ (Entries.cons "a" (FSTree.file ⟨5, 10⟩) Entries.nil)

/-- An environment in which neither external tool is selected, so
`copy_files` falls back to the Python walker. -/
def pyOnlyEnv : Env := ⟨false, false, false⟩

/-- Placeholder subprocess outcomes for runs in which no subprocess is
spawned. -/
def nullEffects : CopyEffects := ⟨RoboOutcome.exit 0, RsyncOutcome.exit 0⟩

/-- C5 counterexample: with the fallback walker, a recursive walk that
completes with zero files copied (source and destination already in sync) is
NOT treated as Success — `copy_files` computes `success = copied > 0`, so the
attempt is recorded as failed and the marker is withheld, contradicting the
claim that a completed walk is always Success. -/
theorem python_zero_copied_walk_not_success :
    copy_with_python (some upToDateTree) (some upToDateTree) = (0, 1)
    ∧ (copy_files pyOnlyEnv nullEffects (some upToDateTree)
        MarkerState.absent true (some upToDateTree)).ran = true
    ∧ (copy_files pyOnlyEnv nullEffects (some upToDateTree)
        MarkerState.absent true (some upToDateTree)).success = false
    ∧ (copy_files pyOnlyEnv nullEffects (some upToDateTree)
        MarkerState.absent true (some upToDateTree)).marker
      = MarkerState.absent := by
  decide

/-- C5 amended: for pairs handled by the fallback walker, the result of the pair
is Success exactly when the walk was attempted and reported at least one
file copied — the copied count being precisely the number of source files
selected by the per-file policy; a completed walk that copies zero files is
treated as failure, and any failure leaves the marker untouched so the pair
is re-attempted next cycle. -/
theorem python_backend_success_iff_copied
    (env : Env) (eff : CopyEffects) (src dst : Option FSTree)
    (marker : MarkerState) (writeOk : Bool)
    (hw : (env.isWindows && env.robocopyAvailable) = false)
    (hr : (!env.isWindows && env.rsyncAvailable) = false) :
    ((copy_files env eff src marker writeOk dst).success = true ↔
      (copy_files env eff src marker writeOk dst).ran = true ∧
        0 < (copy_with_python src dst).1)
    ∧ (copy_with_python src dst).1 = neededCount src dst
    ∧ ((copy_files env eff src marker writeOk dst).success = false →
        (copy_files env eff src marker writeOk dst).marker = marker) := by
  have hrb : run_backend env eff src dst
      = decide (0 < (copy_with_python src dst).1) := by
    simp [run_backend, hw, hr]
  refine ⟨?_, copy_with_python_copied src dst,
    copy_files_marker_of_failure env eff src marker writeOk dst⟩
  rw [copy_files_success, copy_files_ran, hrb]
  simp [Bool.and_eq_true]

theorem python_backend_success_iff_copied_witness :
    (copy_files pyOnlyEnv nullEffects (some upToDateTree)
        MarkerState.absent true none).success = true :=
  ((python_backend_success_iff_copied pyOnlyEnv nullEffects (some upToDateTree)
      none MarkerState.absent true rfl rfl).1).mpr (by decide)

/-- C6 counterexample: the `main.py` resolver does not honour
case-insensitive substring matching: volume `"BACKUP-USB"` contains the
label `"backup"` case-insensitively, yet `find_drive_path` returns `None`
because it requires the reported name to equal the label exactly. -/
theorem find_drive_path_ignores_substring_match :
    ciSub "backup" "BACKUP-USB" = true
    ∧ find_drive_path "backup" [⟨"BACKUP-USB", "E:"⟩] = none := by
  decide

/-- C6 amended: the `watchdog_backup.py` resolver returns `None` exactly
when the name of no mounted volume contains the label as a case-insensitive
substring, and otherwise the mount path of the first volume whose name
does; the `main.py` resolver instead requires the volume name to equal the
label exactly (returning the caption of the first exact match plus a
backslash). -/
theorem volume_resolution_characterised (label : String) (vols : List Volume) :
    (is_disk_connected label vols = none ↔
      ∀ v ∈ vols, ciSub label v.name = false)
    ∧ (∀ (pre : List Volume) (v : Volume) (suf : List Volume),
        vols = pre ++ v :: suf →
        (∀ u ∈ pre, ciSub label u.name = false) →
        ciSub label v.name = true →
        is_disk_connected label vols = some v.mount)
    ∧ (find_drive_path label vols = none ↔ ∀ v ∈ vols, v.name ≠ label)
    ∧ (∀ (pre : List Volume) (v : Volume) (suf : List Volume),
        vols = pre ++ v :: suf →
        (∀ u ∈ pre, u.name ≠ label) →
        v.name = label →
        find_drive_path label vols = some (v.mount ++ "\\")) := by
  refine ⟨is_disk_connected_none_iff label vols, ?_,
    find_drive_path_none_iff label vols, ?_⟩
  · intro pre v suf hv hpre hm
    subst hv
    exact is_disk_connected_first label pre v suf hpre hm
  · intro pre v suf hv hpre hm
    subst hv
    exact find_drive_path_first label pre v suf hpre hm

theorem volume_resolution_characterised_witness :
    is_disk_connected "backup" [⟨"OTHER", "D:"⟩, ⟨"BACKUP-USB", "E:"⟩]
      = some "E:" :=
  (volume_resolution_characterised "backup" _).2.1
    [⟨"OTHER", "D:"⟩] ⟨"BACKUP-USB", "E:"⟩ [] rfl (by decide) (by decide)

/-- C7: a `Disconnected`→`Connected` transition triggers an immediate sync
pass regardless of the interval or of how recently the last sync ran, and a
`Connected`→`Disconnected` transition triggers no copy activity in that
cycle. -/
theorem connection_transition_behaviour
    (interval : ℚ) (st : MonitorState) (current : Bool) (now : ℚ) :
    (st.drive_connected = false → current = true →
      (loop_step interval st current now).2 = true ∧
      (loop_step interval st current now).1.drive_connected = true)
    ∧ (st.drive_connected = true → current = false →
      (loop_step interval st current now).2 = false ∧
      (loop_step interval st current now).1.drive_connected = false) := by
  constructor
  · intro h1 h2
    subst h2
    simp [loop_step, h1]
  · intro h1 h2
    subst h2
    simp [loop_step, h1]

theorem connection_transition_behaviour_witness :
    (loop_step 300 ⟨false, 100⟩ true 101).2 = true :=
  ((connection_transition_behaviour 300 ⟨false, 100⟩ true 101).1 rfl rfl).1

/-- C8: on success the persisted marker value is the maximum source mtime
observed at scan time — `current_mtime` is computed once, before the backend
runs, and it is that value which is written; consequently any source state
whose maximum mtime exceeds the scanned value (e.g. files modified during
the copy) makes change detection fire again on the next cycle. -/
theorem marker_is_scan_time_value
    (env : Env) (eff : CopyEffects) (src : Option FSTree)
    (marker : MarkerState) (dst : Option FSTree)
    (h1 : need_copy (get_dir_mtime src) marker = true)
    (h2 : run_backend env eff src dst = true) :
    (copy_files env eff src marker true dst).marker
        = MarkerState.value (get_dir_mtime src)
    ∧ ∀ post : Option FSTree, get_dir_mtime src < get_dir_mtime post →
        need_copy (get_dir_mtime post)
          ((copy_files env eff src marker true dst).marker) = true := by
  have hm : (copy_files env eff src marker true dst).marker
      = MarkerState.value (get_dir_mtime src) := by
    simp [copy_files, h1, h2]
  refine ⟨hm, ?_⟩
  intro post hp
  rw [hm]
  simp [need_copy, not_le.mpr hp]

theorem marker_is_scan_time_value_witness :
    (copy_files ⟨true, true, true⟩ nullEffects
        (some (FSTree.dir ⟨5, 0⟩ Entries.nil)) MarkerState.absent true
        none).marker
      = MarkerState.value (get_dir_mtime (some (FSTree.dir ⟨5, 0⟩ Entries.nil)))
    ∧ need_copy (get_dir_mtime (some (FSTree.dir ⟨7, 0⟩ Entries.nil)))
        (copy_files ⟨true, true, true⟩ nullEffects
          (some (FSTree.dir ⟨5, 0⟩ Entries.nil)) MarkerState.absent true
          none).marker
      = true :=
  ⟨(marker_is_scan_time_value _ _ _ _ _ (by decide) (by decide)).1,
   (marker_is_scan_time_value _ _ _ _ _ (by decide) (by decide)).2
     (some (FSTree.dir ⟨7, 0⟩ Entries.nil)) (by decide)⟩

/-- C9: calling the robocopy-log rotation when the log file does not exist
changes nothing; likewise when it is below the size threshold; rotation
happens exactly when the log exists with size at least the threshold, in
which case the current log is renamed away (gone afterwards) and the
archives kept are a suffix of the ascending creation-time ordering of all
archives (so only the oldest are deleted), their number staying below the
generation cap. -/
theorem rotate_log_noop_and_trigger (st : RoboLogState) (c : ℚ) :
    (st.log = none → rotate_robocopy_log st c = st)
    ∧ (∀ size, st.log = some size → size < MAX_ROBOCOPY_LOG_SIZE →
        rotate_robocopy_log st c = st)
    ∧ (∀ size, st.log = some size → MAX_ROBOCOPY_LOG_SIZE ≤ size →
        (rotate_robocopy_log st c).log = none
        ∧ (rotate_robocopy_log st c).archives.length < MAX_LOG_FILES
        ∧ List.IsSuffix (rotate_robocopy_log st c).archives
            (sortCtimes (c :: st.archives))
        ∧ List.Sorted (· ≤ ·) (sortCtimes (c :: st.archives))
        ∧ List.Perm (sortCtimes (c :: st.archives)) (c :: st.archives)) := by
  refine ⟨?_, ?_, ?_⟩
  · intro h
    simp [rotate_robocopy_log, h]
  · intro size h hlt
    simp [rotate_robocopy_log, h, hlt]
  · intro size h hge
    have hnot : ¬ size < MAX_ROBOCOPY_LOG_SIZE := not_lt.mpr hge
    simp only [rotate_robocopy_log, h, if_neg hnot]
    exact ⟨by trivial, pruneOld_length_lt _, pruneOld_suffix _,
      sortCtimes_sorted _, sortCtimes_perm _⟩

theorem rotate_log_noop_and_trigger_witness :
    rotate_robocopy_log ⟨none, [1, 2]⟩ 5 = ⟨none, [1, 2]⟩
    ∧ rotate_robocopy_log ⟨some 5, [1, 2]⟩ 5 = ⟨some 5, [1, 2]⟩
    ∧ (rotate_robocopy_log ⟨some (10 * 1024 * 1024), [1, 2]⟩ 5).log = none :=
  ⟨(rotate_log_noop_and_trigger _ _).1 rfl,
   (rotate_log_noop_and_trigger _ _).2.1 5 rfl (by decide),
   ((rotate_log_noop_and_trigger _ _).2.2 (10 * 1024 * 1024) rfl
     (by decide)).1⟩

/-- C10: `main.py` reports the drive connected exactly when the volume mount
path is found and, for every configured target directory, the target path
relative to its root component already exists under the mount; one missing
target makes the check report disconnected, and a disconnected report
(`current = false`) can never trigger a sync pass in that cycle. -/
theorem drive_connection_requires_targets
    (resolved : Option (List String)) (ex : List String → Bool)
    (targets : List (List String)) :
    (check_drive_connection resolved ex targets = true ↔
      ∃ mount, resolved = some mount ∧
        ∀ t ∈ targets, ex (mount ++ t.tail) = true)
    ∧ (∀ mount t, resolved = some mount → t ∈ targets →
        ex (mount ++ t.tail) = false →
        check_drive_connection resolved ex targets = false)
    ∧ (∀ (interval : ℚ) (st : MonitorState) (now : ℚ),
        (loop_step interval st false now).2 = false) := by
  refine ⟨?_, ?_, ?_⟩
  · cases resolved with
    | none => simp [check_drive_connection]
    | some mount => simp [check_drive_connection, List.all_eq_true]
  · intro mount t hres ht hex
    subst hres
    simp only [check_drive_connection]
    rw [List.all_eq_false]
    exact ⟨t, ht, by simp [hex]⟩
  · intro interval st now
    cases h : st.drive_connected <;> simp [loop_step, h]

theorem drive_connection_requires_targets_witness :
    check_drive_connection (some ["E:"]) (fun _ => false)
      [["D:", "backup"]] = false :=
  (drive_connection_requires_targets _ _ _).2.1 ["E:"] ["D:", "backup"]
    rfl (by simp) rfl

end WatchdogBackup
